import Mathlib

/-!
Verification development for the Sparkify data-lake ETL (src/etl.py).

The pipeline is embedded shallowly: each Spark DataFrame is a Lean list of
records, each SparkSQL query is a list transformation, and string-typed
columns are lists of characters (the character data of the string), so the
comparison performed by the SQL `MAX` aggregate is the lexicographic order
on `List Char`.

The udfs of `enrich_log_data` (etl.py 229, 233) declare no return type, so
both derived columns are StringType.  PySpark applies no `str()` on the way
in: the worker returns the raw `datetime` object, it is pickled, Pyrolite
unpickles it on the JVM as a `java.util.GregorianCalendar`, and Spark's
conversion of that object to a StringType column value yields null (the
type-mismatch-to-null policy; some builds instead store the Calendar's
debug rendering, whose lexicographic order is likewise not chronological —
the null outcome is the one modelled here).  The second udf then computes
`str(None) = 'None'`, so `start_time` is the constant string "None".  The
Python lambda itself still runs, so a null `ts` (TypeError on
`None / 1000.0`) or an instant past year 9999 (`datetime.fromtimestamp`
raises) still aborts the job; this is modelled by `Option`.

The SQL date functions `hour/day/weekofyear/month/year/weekday` applied to
`start_time` first cast the string to a timestamp; the cast parses the
canonical `YYYY-MM-DD HH:MM:SS[.fffff]` shape and yields null on anything
else — in particular on "None" — and the functions propagate the null.
-/

namespace Sparkify

/-! ## Calendar helpers used by the models of the SQL date functions -/

/-- Gregorian leap-year test. -/
def isLeap (y : Nat) : Bool := y % 4 == 0 && (y % 100 != 0 || y % 400 == 0)

/-- Number of days in calendar year `y`. -/
def daysInYear (y : Nat) : Nat := if isLeap y then 366 else 365

/-- Number of days in month `m` (1..12) of a year with leap flag `leap`. -/
def daysInMonth (leap : Bool) (m : Nat) : Nat :=
  if m = 2 then (if leap then 29 else 28)
  else if m = 4 ∨ m = 6 ∨ m = 9 ∨ m = 11 then 30
  else 31

/-- Total days of the `n` consecutive calendar years starting at year `y`. -/
def yearsSumAux : Nat → Nat → Nat
  | 0, _ => 0
  | n+1, y => daysInYear y + yearsSumAux n (y + 1)

/-- Days from 1970-01-01 to Jan 1 of year `y` (for `y` in the epoch range). -/
def daysBeforeYear (y : Nat) : Nat := yearsSumAux (y - 1970) 1970

/-- Days from Jan 1 to the first of month `m` within one year. -/
def daysBeforeMonth (leap : Bool) : Nat → Nat
  | 0 => 0
  | 1 => 0
  | m+1 => daysBeforeMonth leap m + daysInMonth leap m

/-- ISO weekday (1 = Monday .. 7 = Sunday) of a day index; day 0
(1970-01-01) was a Thursday. -/
def isoWeekdayOfDay (d : Nat) : Nat := (d + 3) % 7 + 1

/-- Number of ISO weeks in a year whose Jan 1 falls on weekday `jan1wd`. -/
def weeksInYear (jan1wd : Nat) (leap : Bool) : Nat :=
  if jan1wd = 4 ∨ (leap = true ∧ jan1wd = 3) then 53 else 52

/-- Epoch milliseconds of 10000-01-01 00:00:00 UTC: at or past this instant
`datetime.fromtimestamp` raises (`datetime` ends at year 9999), aborting
the run. -/
def maxTs : Nat := 253402300800000

/-! ## Data model: raw records as parsed against the fixed schemas -/

/-- Value of a `DoubleType` column.  The pipeline only moves and compares
these values (projection, DISTINCT), never computes with them, so they are
modelled by their normalized 64-bit pattern as a `Nat`. -/
abbrev DoubleBits := Nat

/-- A song-catalog record per the schema of `get_song_data_df` (etl.py
158-169).  Every field is nullable: a field missing from the JSON object
parses to null. -/
structure RawSong where
  artist_id : Option String
  artist_latitude : Option DoubleBits
  artist_location : Option String
  artist_longitude : Option DoubleBits
  artist_name : Option String
  duration : Option DoubleBits
  num_songs : Option Int
  song_id : Option String
  title : Option String
  year : Option Int
deriving DecidableEq, Repr

/-- An activity-log record per the schema of `get_log_data_df` (etl.py
191-210).  Every field is nullable. -/
structure RawLog where
  artist : Option String
  auth : Option String
  firstName : Option String
  gender : Option String
  itemInSession : Option Int
  lastName : Option String
  length : Option DoubleBits
  level : Option String
  location : Option String
  method : Option String
  page : Option String
  registration : Option DoubleBits
  sessionId : Option Int
  song : Option String
  status : Option Int
  ts : Option Int
  userAgent : Option String
  userId : Option String
deriving DecidableEq, Repr

/-- Model of `spark.read.json(..., schema=..., mode='DROPMALFORMED')` in
`get_song_data_df` (etl.py 171-173).  An element of the source is `some r`
for an input record that parses against the schema (missing JSON fields
become null in `r`) and `none` for one that fails to parse — malformed
JSON or a field of the wrong type — which DROPMALFORMED silently discards;
no error is raised for individual records. -/
def get_song_data_df (src : List (Option RawSong)) : List RawSong := src.filterMap id

/-- Model of `spark.read.json(..., schema=..., mode='DROPMALFORMED')` in
`get_log_data_df` (etl.py 212-214), with the same parse-outcome convention
as `get_song_data_df`. -/
def get_log_data_df (src : List (Option RawLog)) : List RawLog := src.filterMap id

/-! ## Temporal enrichment (`enrich_log_data`, etl.py 218-235) -/

/-- The characters of the Python string `str(None)`. -/
def noneChars : List Char := ['N', 'o', 'n', 'e']

/-- A log event after `enrich_log_data`.  Both derived columns are
nullable StringType.  `timestamp` holds the StringType conversion of the
datetime returned by the first udf — null, since the unpickled
`GregorianCalendar` does not convert to a string value.  `start_time`
holds the result of the second udf, `str` of the (null) timestamp value,
i.e. the literal string "None". -/
structure Enriched extends RawLog where
  timestamp : Option (List Char)
  start_time : Option (List Char)
deriving DecidableEq, Repr

/-- Enrichment of a single row.  `none` models the Python exceptions that
abort the job: a null `ts` (the udf computes `None / 1000.0`) or an instant
at or past year 10000 (`datetime.fromtimestamp` raises).  Negative `ts`
(pre-epoch instants) is declared undefined by the spec and is likewise
mapped to failure rather than modelled.  On success the derived columns
are the null timestamp and the constant "None" start_time described in the
header. -/
def enrichEvent (l : RawLog) : Option Enriched :=
  match l.ts with
  | none => none
  | some n =>
    if 0 ≤ n ∧ n.toNat < maxTs then
      some { toRawLog := l, timestamp := none, start_time := some noneChars }
    else none

/-- Model of `enrich_log_data`: enrich every row, failing if any row fails. -/
def enrich_log_data : List RawLog → Option (List Enriched)
  | [] => some []
  | l :: ls =>
    match enrichEvent l, enrich_log_data ls with
    | some e, some es => some (e :: es)
    | _, _ => none

theorem enrichEvent_some (l : RawLog) (n : Int) (h : l.ts = some n) :
    enrichEvent l =
      if 0 ≤ n ∧ n.toNat < maxTs then
        some { toRawLog := l, timestamp := none, start_time := some noneChars }
      else none := by
  unfold enrichEvent
  rw [h]

theorem enrichEvent_fields {l : RawLog} {e : Enriched} (h : enrichEvent l = some e) :
    e.timestamp = none ∧ e.start_time = some noneChars ∧ e.toRawLog = l := by
  cases hts : l.ts with
  | none =>
    rw [show enrichEvent l = none by unfold enrichEvent; rw [hts]] at h
    exact absurd h (by simp)
  | some n =>
    rw [enrichEvent_some l n hts] at h
    by_cases hg : 0 ≤ n ∧ n.toNat < maxTs
    · rw [if_pos hg] at h
      injection h with h
      rw [← h]
      exact ⟨rfl, rfl, rfl⟩
    · rw [if_neg hg] at h
      exact absurd h (by simp)

theorem enrich_log_data_mem : ∀ (ls : List RawLog) (st : List Enriched),
    enrich_log_data ls = some st → ∀ e ∈ st, ∃ l ∈ ls, enrichEvent l = some e := by
  intro ls
  induction ls with
  | nil =>
    intro st h e he
    injection h with h
    rw [← h] at he
    exact absurd he (List.not_mem_nil e)
  | cons l ls ih =>
    intro st h e he
    unfold enrich_log_data at h
    cases hev : enrichEvent l with
    | none =>
      rw [hev] at h
      exact absurd h (by simp)
    | some e0 =>
      rw [hev] at h
      cases hrest : enrich_log_data ls with
      | none =>
        rw [hrest] at h
        exact absurd h (by simp)
      | some es =>
        rw [hrest] at h
        injection h with h
        rw [← h] at he
        rcases List.mem_cons.mp he with rfl | hmem
        · exact ⟨l, List.mem_cons_self _ _, hev⟩
        · obtain ⟨l2, hl2, hev2⟩ := ih es hrest e hmem
          exact ⟨l2, List.mem_cons_of_mem _ hl2, hev2⟩

/-! ## The SQL date functions on the nullable start_time string column -/

def digitVal (c : Char) : Option Nat :=
  if c.isDigit then some (c.toNat - 48) else none

def parse2 (a b : Char) : Option Nat :=
  match digitVal a, digitVal b with
  | some x, some y => some (10 * x + y)
  | _, _ => none

def parse4 (a b c d : Char) : Option Nat :=
  match parse2 a b, parse2 c d with
  | some h, some l => some (100 * h + l)
  | _, _ => none

/-- The calendar fields of a successfully cast timestamp string. -/
structure TsFields where
  year : Nat
  month : Nat
  day : Nat
  hour : Nat
  minute : Nat
  second : Nat
deriving DecidableEq, Repr

/-- Optional fractional-seconds suffix accepted by the cast. -/
def fracOk : List Char → Bool
  | [] => true
  | ['.'] => false
  | '.' :: ds => ds.all fun c => c.isDigit
  | _ => false

/-- The string-to-timestamp cast performed by Spark's date functions:
parses the canonical `YYYY-MM-DD HH:MM:SS[.fffff]` shape with valid field
ranges and yields null (`none`) on anything else — in particular on the
constant "None" the pipeline produces. -/
def parseTimestampChars : List Char → Option TsFields
  | y1 :: y2 :: y3 :: y4 :: '-' :: mo1 :: mo2 :: '-' :: d1 :: d2 :: ' ' ::
      h1 :: h2 :: ':' :: mi1 :: mi2 :: ':' :: s1 :: s2 :: rest =>
    match parse4 y1 y2 y3 y4, parse2 mo1 mo2, parse2 d1 d2, parse2 h1 h2,
        parse2 mi1 mi2, parse2 s1 s2 with
    | some y, some mo, some d, some h, some mi, some s =>
      if 1 ≤ mo ∧ mo ≤ 12 ∧ 1 ≤ d ∧ d ≤ daysInMonth (isLeap y) mo ∧
          h < 24 ∧ mi < 60 ∧ s < 60 ∧ fracOk rest = true
      then some ⟨y, mo, d, h, mi, s⟩ else none
    | _, _, _, _, _, _ => none
  | _ => none

/-- Cast of the nullable string column: null in, null out. -/
def sqlTimestamp (s : Option (List Char)) : Option TsFields :=
  match s with
  | none => none
  | some cs => parseTimestampChars cs

/-- Day index (days since 1970-01-01) of a cast timestamp's date. -/
def dayIndexOf (f : TsFields) : Nat :=
  daysBeforeYear f.year + daysBeforeMonth (isLeap f.year) f.month + (f.day - 1)

/-- 1-based day of year of a cast timestamp's date. -/
def doyOf (f : TsFields) : Nat := daysBeforeMonth (isLeap f.year) f.month + f.day

/-- ISO-8601 week number of a cast timestamp's date (Spark `weekofyear`). -/
def isoWeekOf (f : TsFields) : Nat :=
  let days := dayIndexOf f
  let doy := doyOf f
  let wd := isoWeekdayOfDay days
  let w := (doy + 10 - wd) / 7
  if w = 0 then
    weeksInYear (isoWeekdayOfDay (days + 1 - doy - daysInYear (f.year - 1)))
      (isLeap (f.year - 1))
  else if w = 53 ∧ weeksInYear (isoWeekdayOfDay (days + 1 - doy)) (isLeap f.year) = 52
  then 1
  else w

def sqlHour (s : Option (List Char)) : Option Int :=
  (sqlTimestamp s).map fun f => (f.hour : Int)

def sqlDay (s : Option (List Char)) : Option Int :=
  (sqlTimestamp s).map fun f => (f.day : Int)

def sqlWeekOfYear (s : Option (List Char)) : Option Int :=
  (sqlTimestamp s).map fun f => (isoWeekOf f : Int)

def sqlMonth (s : Option (List Char)) : Option Int :=
  (sqlTimestamp s).map fun f => (f.month : Int)

def sqlYear (s : Option (List Char)) : Option Int :=
  (sqlTimestamp s).map fun f => (f.year : Int)

/-- Spark `weekday()`: 0 = Monday. -/
def sqlWeekday (s : Option (List Char)) : Option Int :=
  (sqlTimestamp s).map fun f => ((dayIndexOf f + 3) % 7 : Int)

/-! ## Dimension and fact tables -/

/-- Row of the songs table (etl.py 28-33): `SELECT DISTINCT song_id,
title AS song_title, artist_id, year, duration`. -/
structure SongRow where
  song_id : Option String
  song_title : Option String
  artist_id : Option String
  year : Option Int
  duration : Option DoubleBits
deriving DecidableEq, Repr

def songProj (s : RawSong) : SongRow :=
  { song_id := s.song_id, song_title := s.title, artist_id := s.artist_id,
    year := s.year, duration := s.duration }

/-- The year filter `songs.year != 0` (etl.py 33); SQL `!=` is
null-rejecting, so a null year also fails the filter. -/
def songYearPred (r : SongRow) : Bool :=
  match r.year with
  | some y => y != 0
  | none => false

/-- The songs table: DISTINCT projection, then `filter(songs.year != 0)`. -/
def songs_table (catalog : List RawSong) : List SongRow :=
  ((catalog.map songProj).dedup).filter songYearPred

/-- Row of the artists table (etl.py 41-44). -/
structure ArtistRow where
  artist_id : Option String
  artist_name : Option String
  artist_location : Option String
  artist_latitude : Option DoubleBits
  artist_longitude : Option DoubleBits
deriving DecidableEq, Repr

def artistProj (s : RawSong) : ArtistRow :=
  { artist_id := s.artist_id, artist_name := s.artist_name,
    artist_location := s.artist_location, artist_latitude := s.artist_latitude,
    artist_longitude := s.artist_longitude }

/-- The artists table: DISTINCT projection over the whole catalog, no filter. -/
def artists_table (catalog : List RawSong) : List ArtistRow :=
  (catalog.map artistProj).dedup

/-- Row of the users table (etl.py 77-91). -/
structure UserRow where
  userId : Option String
  level : Option String
  firstName : Option String
  lastName : Option String
  gender : Option String
deriving DecidableEq, Repr

def userProj (l : Enriched) : UserRow :=
  { userId := l.userId, level := l.level, firstName := l.firstName,
    lastName := l.lastName, gender := l.gender }

/-- Distinct group keys of the subquery `GROUP BY userId, page` (etl.py 87)
over `staging_logs`. -/
def groupKeys (staging : List Enriched) : List (Option String × Option String) :=
  (staging.map fun l => (l.userId, l.page)).dedup

/-- The maximum of a list of strings under lexicographic order, as computed
by the SQL `MAX` aggregate over the non-null values; `none` when no
non-null value exists. -/
def listMaxChars : List (List Char) → Option (List Char)
  | [] => none
  | t :: ts =>
    match listMaxChars ts with
    | none => some t
    | some m => some (if t < m then m else t)

/-- `MAX(timestamp)` of one `(userId, page)` group: the aggregate ignores
null timestamps, and is null (`none`) when the group has only nulls —
which is every group in this pipeline. -/
def groupMax (staging : List Enriched) (k : Option String × Option String) :
    Option (List Char) :=
  listMaxChars ((staging.filter fun l => (l.userId, l.page) == k).filterMap
    fun l => l.timestamp)

/-- Rows `((userId, page), maxtimestamp)` of the inner subquery (etl.py
84-87): one row per group, the aggregate possibly null. -/
def maxTsRows (staging : List Enriched) :
    List ((Option String × Option String) × Option (List Char)) :=
  (groupKeys staging).map fun k => (k, groupMax staging k)

/-- Join condition `l.userId = r.userId AND l.timestamp = r.maxtimestamp`
(etl.py 88-89): SQL equality rejects null on either side of both
comparisons. -/
def usersJoinCond (l : Enriched)
    (r : (Option String × Option String) × Option (List Char)) : Bool :=
  match l.userId, r.1.1, l.timestamp, r.2 with
  | some a, some b, some t, some m => a == b && t == m
  | _, _, _, _ => false

/-- The inner join of `staging_logs` with the per-(userId, page) maxima,
projected to the user columns (etl.py 77-90). -/
def usersJoined (staging : List Enriched) : List UserRow :=
  ((staging.product (maxTsRows staging)).filter fun p => usersJoinCond p.1 p.2).map
    fun p => userProj p.1

def dedupByKeyAux {α κ : Type} [DecidableEq κ] (key : α → κ) (seen : List κ) :
    List α → List α
  | [] => []
  | x :: xs =>
    if key x ∈ seen then dedupByKeyAux key seen xs
    else x :: dedupByKeyAux key (key x :: seen) xs

/-- Model of `dropDuplicates([cols])`: keep the first row of each key group. -/
def dedupByKey {α κ : Type} [DecidableEq κ] (key : α → κ) (xs : List α) : List α :=
  dedupByKeyAux key [] xs

/-- The users table: join to the per-user maximum timestamp, then
`dropDuplicates(['userId', 'level'])` (etl.py 77-91). -/
def users_table (staging : List Enriched) : List UserRow :=
  dedupByKey (fun u => (u.userId, u.level)) (usersJoined staging)

/-! ## Time table (etl.py 99-108) -/

/-- Row of the time table.  All calendar fields are nullable: they come
from SQL functions applied to the nullable `start_time` string. -/
structure TimeRow where
  start_time : Option (List Char)
  hour : Option Int
  day : Option Int
  week : Option Int
  month : Option Int
  year : Option Int
  weekday : Option Int
deriving DecidableEq, Repr

/-- Projection of one staging row to a time row: each field applies the
corresponding SQL date function to the `start_time` string. -/
def timeProj (l : Enriched) : TimeRow :=
  { start_time := l.start_time, hour := sqlHour l.start_time,
    day := sqlDay l.start_time, week := sqlWeekOfYear l.start_time,
    month := sqlMonth l.start_time, year := sqlYear l.start_time,
    weekday := sqlWeekday l.start_time }

/-- The time table: `SELECT DISTINCT start_time, hour(...), ...`. -/
def time_table (staging : List Enriched) : List TimeRow :=
  (staging.map timeProj).dedup

/-! ## Songplays fact table (etl.py 122-136) -/

/-- Row of the songplays table, before the surrogate id is attached.
`year` and `month` are the SQL functions of `start_time`, hence nullable. -/
structure SongplayRow where
  start_time : Option (List Char)
  userId : Option String
  level : Option String
  song_id : Option String
  artist_id : Option String
  sessionId : Option Int
  location : Option String
  userAgent : Option String
  year : Option Int
  month : Option Int
deriving DecidableEq, Repr

/-- Join condition `l.song = r.title` (etl.py 135): SQL string equality —
exact, case-sensitive, and null-rejecting on either side. -/
def songplayJoinCond (l : Enriched) (r : RawSong) : Bool :=
  match l.song, r.title with
  | some a, some b => a == b
  | _, _ => false

def spProj (l : Enriched) (r : RawSong) : SongplayRow :=
  { start_time := l.start_time, userId := l.userId, level := l.level,
    song_id := r.song_id, artist_id := r.artist_id, sessionId := l.sessionId,
    location := l.location, userAgent := l.userAgent,
    year := sqlYear l.start_time, month := sqlMonth l.start_time }

/-- The inner join of `staging_logs` with the (unfiltered, re-read)
`staging_songs` on `l.song = r.title`, projected to the fact columns. -/
def songplay_rows (staging : List Enriched) (catalog : List RawSong) :
    List SongplayRow :=
  ((staging.product catalog).filter fun p => songplayJoinCond p.1 p.2).map
    fun p => spProj p.1 p.2

/-- Spark's `monotonically_increasing_id`: the row at index `j` of the
partition with index `b` receives id `b * 2^33 + j`. -/
def midAux {α : Type} (b : Nat) : List (List α) → List (Nat × α)
  | [] => []
  | p :: ps => (p.enum.map fun q => (b * 2 ^ 33 + q.1, q.2)) ++ midAux (b + 1) ps

/-- Id assignment over an engine-chosen partitioning of the row list. -/
def monotonically_increasing_id {α : Type} (parts : List (List α)) : List (Nat × α) :=
  midAux 0 parts

/-! ## The full run -/

/-- One `write.parquet` call: destination path, `partitionBy` columns in
order, and save mode. -/
structure TableWrite where
  path : String
  partitionBy : List String
  mode : String
deriving DecidableEq, Repr

/-- All tables produced by one run, and the writes that persist them. -/
structure RunOutput where
  songs : List SongRow
  artists : List ArtistRow
  users : List UserRow
  times : List TimeRow
  songplays : List (Nat × SongplayRow)
  writes : List TableWrite
deriving DecidableEq, Repr

/-- One run of `process_song_data` followed by `process_log_data` (etl.py
9-141).  `part` is the engine-chosen partitioning of the songplays rows
consumed by `monotonically_increasing_id`; `none` models a run aborted by
an enrichment exception. -/
def runPipeline (output_data : String) (songSrc : List (Option RawSong))
    (logSrc : List (Option RawLog))
    (part : List SongplayRow → List (List SongplayRow)) : Option RunOutput :=
  let catalog := get_song_data_df songSrc
  let logsAll := get_log_data_df logSrc
  let filtered := logsAll.filter fun l => l.page == some "NextSong"
  match enrich_log_data filtered with
  | none => none
  | some staging =>
    some {
      songs := songs_table catalog
      artists := artists_table catalog
      users := users_table staging
      times := time_table staging
      songplays := monotonically_increasing_id (part (songplay_rows staging catalog))
      writes := [
        { path := output_data ++ "/songs/", partitionBy := ["year", "artist_id"],
          mode := "overwrite" },
        { path := output_data ++ "/artists/", partitionBy := [], mode := "overwrite" },
        { path := output_data ++ "/users/", partitionBy := [], mode := "overwrite" },
        { path := output_data ++ "/time/", partitionBy := ["year", "month"],
          mode := "overwrite" },
        { path := output_data ++ "/songplays/", partitionBy := ["year", "month"],
          mode := "overwrite" } ] }

/-! ## General lemmas about the list combinators of the embedding -/

theorem product_nil {α β : Type} (ys : List β) : ([] : List α).product ys = [] := rfl

theorem product_cons {α β : Type} (x : α) (xs : List α) (ys : List β) :
    (x :: xs).product ys = ys.map (fun b => (x, b)) ++ xs.product ys := by
  show (x :: xs) ×ˢ ys = _
  rw [List.product_cons]
  rfl

theorem mem_product {α β : Type} {l1 : List α} {l2 : List β} {a : α} {b : β} :
    (a, b) ∈ l1.product l2 ↔ a ∈ l1 ∧ b ∈ l2 := List.mem_product

theorem filter_map_pair {α β γ : Type} (P : α → β → Bool) (g : α → β → γ) (x : α) :
    ∀ ys : List β,
      ((ys.map fun b => (x, b)).filter fun p => P p.1 p.2).map (fun p => g p.1 p.2)
        = (ys.filter (P x)).map (g x) := by
  intro ys
  induction ys with
  | nil => rfl
  | cons y ys ihy =>
    by_cases hy : P x y
    · simp only [List.map_cons, List.filter_cons]
      rw [if_pos hy, if_pos hy]
      simp only [List.map_cons]
      rw [ihy]
    · simp only [List.map_cons, List.filter_cons]
      rw [if_neg hy, if_neg hy]
      exact ihy

theorem product_filter_map {α β γ : Type} (P : α → β → Bool) (g : α → β → γ) :
    ∀ (xs : List α) (ys : List β),
      ((xs.product ys).filter fun p => P p.1 p.2).map (fun p => g p.1 p.2)
        = xs.flatMap fun a => (ys.filter (P a)).map (g a) := by
  intro xs ys
  induction xs with
  | nil => rw [product_nil]; rfl
  | cons x xs ih =>
    rw [product_cons, List.filter_append, List.map_append, List.flatMap_cons, ← ih]
    congr 1
    exact filter_map_pair P g x ys

theorem midAux_map_snd {α : Type} : ∀ (parts : List (List α)) (b : Nat),
    (midAux b parts).map Prod.snd = parts.flatten := by
  intro parts
  induction parts with
  | nil => intro b; rfl
  | cons p ps ih =>
    intro b
    show ((p.enum.map fun q : Nat × α => (b * 2 ^ 33 + q.1, q.2)) ++ midAux (b + 1) ps).map
        Prod.snd = p ++ ps.flatten
    rw [List.map_append, ih, List.map_map]
    congr 1
    have : (Prod.snd ∘ fun q : Nat × α => (b * 2 ^ 33 + q.1, q.2)) = Prod.snd := rfl
    rw [this, List.enum_map_snd]

theorem midAux_fst_ge {α : Type} : ∀ (parts : List (List α)) (b : Nat) (x : Nat × α),
    x ∈ midAux b parts → b * 2 ^ 33 ≤ x.1 := by
  intro parts
  induction parts with
  | nil => intro b x h; exact absurd h (List.not_mem_nil x)
  | cons p ps ih =>
    intro b x h
    rcases List.mem_append.mp h with h1 | h1
    · obtain ⟨q, _, hq⟩ := List.mem_map.mp h1
      rw [← hq]
      exact Nat.le_add_right _ _
    · have := ih (b + 1) x h1
      have hb : b * 2 ^ 33 ≤ (b + 1) * 2 ^ 33 := Nat.mul_le_mul_right _ (Nat.le_succ b)
      omega

theorem midAux_map_fst {α : Type} (p : List α) (b : Nat) :
    (p.enum.map fun q : Nat × α => (b * 2 ^ 33 + q.1, q.2)).map Prod.fst
      = (List.range p.length).map fun j => b * 2 ^ 33 + j := by
  rw [List.map_map]
  have : (Prod.fst ∘ fun q : Nat × α => (b * 2 ^ 33 + q.1, q.2))
      = (fun j => b * 2 ^ 33 + j) ∘ Prod.fst := rfl
  rw [this, ← List.map_map, List.enum_map_fst]

theorem midAux_fst_nodup {α : Type} : ∀ (parts : List (List α)) (b : Nat),
    (∀ p ∈ parts, p.length ≤ 2 ^ 33) → ((midAux b parts).map Prod.fst).Nodup := by
  intro parts
  induction parts with
  | nil => intro b _; exact List.Pairwise.nil
  | cons p ps ih =>
    intro b hlen
    show (((p.enum.map fun q : Nat × α => (b * 2 ^ 33 + q.1, q.2)) ++ midAux (b + 1) ps).map
      Prod.fst).Nodup
    rw [List.map_append, midAux_map_fst]
    apply List.Nodup.append
    · exact (List.nodup_range p.length).map (fun a b h => by omega)
    · exact ih (b + 1) (fun q hq => hlen q (List.mem_cons_of_mem p hq))
    · intro x hx hx2
      obtain ⟨j, hj, hje⟩ := List.mem_map.mp hx
      obtain ⟨y, hy, hye⟩ := List.mem_map.mp hx2
      have h1 := midAux_fst_ge ps (b + 1) y hy
      have hjl : j < p.length := List.mem_range.mp hj
      have hpl : p.length ≤ 2 ^ 33 := hlen p (List.mem_cons_self p ps)
      rw [hye] at h1
      omega

/-! ## Shared facts about the songs year filter -/

theorem songYearPred_false_of_year0 {r : SongRow} (h : r.year = some 0) :
    songYearPred r = false := by
  unfold songYearPred
  rw [h]
  decide

theorem songProj_year0_not_mem (catalog : List RawSong) (s : RawSong)
    (hy : s.year = some 0) : songProj s ∉ songs_table catalog := by
  intro hmem
  have hp := (List.mem_filter.mp hmem).2
  have h0 : songYearPred (songProj s) = false := songYearPred_false_of_year0 hy
  rw [h0] at hp
  exact Bool.false_ne_true hp

/-! ## The users join never matches a null timestamp -/

theorem usersJoinCond_eq_false (l : Enriched)
    (r : (Option String × Option String) × Option (List Char))
    (h : l.timestamp = none) : usersJoinCond l r = false := by
  unfold usersJoinCond
  rcases r with ⟨⟨k1, k2⟩, m⟩
  rw [h]
  cases l.userId with
  | none => rfl
  | some a =>
    cases k1 with
    | none => rfl
    | some b => cases m <;> rfl

/-- When every staged timestamp is null — as enrichment always leaves it —
the users join retains nothing and the users table is empty. -/
theorem users_table_nil (staging : List Enriched)
    (hnull : ∀ l ∈ staging, l.timestamp = none) : users_table staging = [] := by
  have hj : usersJoined staging = [] := by
    unfold usersJoined
    have hf : (staging.product (maxTsRows staging)).filter
        (fun p => usersJoinCond p.1 p.2) = [] := by
      apply List.filter_eq_nil_iff.mpr
      intro p hp
      rcases p with ⟨l, rr⟩
      have hl : l ∈ staging := (mem_product.mp hp).1
      rw [usersJoinCond_eq_false l rr (hnull l hl)]
      simp
    rw [hf]
    rfl
  unfold users_table
  rw [hj]
  rfl

theorem staging_timestamps_null {ls : List RawLog} {staging : List Enriched}
    (hst : enrich_log_data ls = some staging) :
    ∀ e ∈ staging, e.timestamp = none := by
  intro e he
  obtain ⟨l, _, hev⟩ := enrich_log_data_mem ls staging hst e he
  exact (enrichEvent_fields hev).1

/-! ## Concrete sample records used by witnesses and counterexamples -/

/-- A fully populated log event on the "NextSong" page. -/
def sampleLog (uid lvl : Option String) (t : Option Int) : RawLog :=
  { artist := some "Artist", auth := some "Logged In", firstName := some "Ada",
    gender := some "F", itemInSession := some 0, lastName := some "Byron",
    length := some 180, level := lvl, location := some "X", method := some "PUT",
    page := some "NextSong", registration := some 1, sessionId := some 100,
    song := some "Test Song", status := some 200, ts := t, userAgent := some "UA",
    userId := uid }

/-- A fully populated song-catalog record. -/
def sampleSong : RawSong :=
  { artist_id := some "A1", artist_latitude := none, artist_location := some "L",
    artist_longitude := none, artist_name := some "Artist", duration := some 180,
    num_songs := some 1, song_id := some "S1", title := some "Test Song",
    year := some 2000 }

def sampleSongYear0 : RawSong := { sampleSong with song_id := some "S0", year := some 0 }

/-- The enriched form of a raw event with an in-range `ts`. -/
def enrE (l : RawLog) : Enriched :=
  { toRawLog := l, timestamp := none, start_time := some noneChars }

def cexFree : RawLog := sampleLog (some "1") (some "free") (some 1000)

def cexPaid : RawLog := sampleLog (some "1") (some "paid") (some 2000)

def sampleE1 : Enriched := enrE cexFree

/-! ## The claims -/

/-- C1 counterexample: two "NextSong" events for userId "1" with different
levels ("free" at ts 1000, "paid" at ts 2000).  The users table contains
no row at all — not two: the derived timestamp column is null, so the
join against `MAX(timestamp)` (null for every group) matches nothing. -/
theorem claim_C1_counterexample :
    cexFree.userId = cexPaid.userId ∧ cexFree.level ≠ cexPaid.level ∧
    cexFree.page = some "NextSong" ∧ cexPaid.page = some "NextSong" ∧
    (enrich_log_data ([cexFree, cexPaid].filter fun l => l.page == some "NextSong")).map
        (fun st => users_table st)
      = some [] := by
  refine ⟨rfl, by decide, rfl, rfl, by decide⟩

/-- C1 (amended): for every pair of log events with the same userId but
different level values (both on the "NextSong" page), UserDim contains no
row for that userId at all — the untyped udf leaves the derived timestamp
column null, so the users query's inner join on `MAX(timestamp)` retains
nothing and the users table is empty. -/
theorem claim_C1 (ls : List RawLog) (staging : List Enriched)
    (e1 e2 : Enriched) (u : String)
    (hst : enrich_log_data ls = some staging)
    (h1 : e1 ∈ staging) (h2 : e2 ∈ staging)
    (hu1 : e1.userId = some u) (hu2 : e2.userId = some u)
    (hlvl : e1.level ≠ e2.level) :
    users_table staging = [] ∧ ¬ ∃ r ∈ users_table staging, r.userId = some u := by
  have hnil := users_table_nil staging (staging_timestamps_null hst)
  refine ⟨hnil, ?_⟩
  intro hex
  obtain ⟨r, hr, _⟩ := hex
  rw [hnil] at hr
  exact absurd hr (List.not_mem_nil r)

/-- C1 witness: the two-event staging produced by enriching the
counterexample events. -/
theorem claim_C1_witness :
    users_table [enrE cexFree, enrE cexPaid] = [] ∧
    ¬ ∃ r ∈ users_table [enrE cexFree, enrE cexPaid], r.userId = some "1" :=
  claim_C1 [cexFree, cexPaid] [enrE cexFree, enrE cexPaid] (enrE cexFree) (enrE cexPaid)
    "1" (by decide) (by decide) (by decide) rfl rfl (by decide)

/-- C2: the code does not implement the claimed latest-wins retention.
For every staging list produced by enrichment the users table is empty —
the timestamp column is null, so the join on `MAX(timestamp)` matches
nothing — and hence no staged (userId, level) receives its
maximum-timestamp profile row, although the claim (and the spec's
end-to-end scenario) require one. -/
theorem claim_C2 (ls : List RawLog) (staging : List Enriched)
    (hst : enrich_log_data ls = some staging) :
    users_table staging = [] ∧
    ∀ e ∈ staging,
      ¬ ∃ r ∈ users_table staging, r.userId = e.userId ∧ r.level = e.level := by
  have hnil := users_table_nil staging (staging_timestamps_null hst)
  refine ⟨hnil, ?_⟩
  intro e _ hex
  obtain ⟨r, hr, _⟩ := hex
  rw [hnil] at hr
  exact absurd hr (List.not_mem_nil r)

/-- C2 witness: the spec's own end-to-end scenario event produces an empty
users table instead of the required single row. -/
theorem claim_C2_witness :
    users_table [enrE cexFree] = [] ∧
    ∀ e ∈ [enrE cexFree],
      ¬ ∃ r ∈ users_table [enrE cexFree], r.userId = e.userId ∧ r.level = e.level :=
  claim_C2 [cexFree] [enrE cexFree] (by decide)

/-- C3: the songplays join produces exactly one row per pair of a staged log
event and a catalog record whose `song` and `title` are equal, non-null
strings (exact, hence case-sensitive, equality); an event matching no title
contributes nothing, and k catalog records sharing the matched title
contribute k separate rows, as the row count states. -/
theorem claim_C3 (staging : List Enriched) (catalog : List RawSong) :
    songplay_rows staging catalog
        = (staging.flatMap fun l => (catalog.filter (songplayJoinCond l)).map (spProj l)) ∧
    (∀ (l : Enriched) (s : RawSong),
      songplayJoinCond l s = true ↔ ∃ t, l.song = some t ∧ s.title = some t) ∧
    (songplay_rows staging catalog).length
        = (staging.map fun l => (catalog.filter (songplayJoinCond l)).length).sum := by
  have h1 := product_filter_map songplayJoinCond spProj staging catalog
  refine ⟨h1, ?_, ?_⟩
  · intro l s
    unfold songplayJoinCond
    cases hs : l.song with
    | none => simp
    | some a =>
      cases ht : s.title with
      | none => simp
      | some b =>
        rw [beq_iff_eq]
        constructor
        · intro hab
          exact ⟨a, rfl, by rw [hab]⟩
        · rintro ⟨t, h2, h3⟩
          injection h2 with h2
          injection h3 with h3
          exact h2.trans h3.symm
  · rw [show songplay_rows staging catalog
        = (staging.flatMap fun l => (catalog.filter (songplayJoinCond l)).map (spProj l))
      from h1]
    rw [List.length_flatMap]
    congr 1
    apply List.map_congr_left
    intro l _
    show ((catalog.filter (songplayJoinCond l)).map (spProj l)).length
        = (catalog.filter (songplayJoinCond l)).length
    rw [List.length_map]

def nullIdSong : RawSong := { sampleSong with song_id := none }

def nullIdLog : RawLog := sampleLog none (some "free") (some 1000)

/-- C4 counterexample: a log record whose userId parsed to null and a song
record whose song_id parsed to null are both retained by the loaders; the
DROPMALFORMED read only discards records that fail to parse, it does not
make identifier fields mandatory. -/
theorem claim_C4_counterexample :
    nullIdLog.userId = none ∧ get_log_data_df [some nullIdLog] = [nullIdLog] ∧
    nullIdSong.song_id = none ∧ get_song_data_df [some nullIdSong] = [nullIdSong] :=
  ⟨rfl, rfl, rfl, rfl⟩

/-- C4 (amended): the loaders silently drop exactly the input records that
fail to parse against the fixed schema (malformed JSON, wrong field type)
and raise no error; a record that parses is retained even when its
identifier fields (song_id, userId) are absent or null — missing fields
simply parse to null. -/
theorem claim_C4 (songSrc : List (Option RawSong)) (logSrc : List (Option RawLog)) :
    (∀ r : RawSong, r ∈ get_song_data_df songSrc ↔ some r ∈ songSrc) ∧
    (∀ r : RawLog, r ∈ get_log_data_df logSrc ↔ some r ∈ logSrc) ∧
    get_song_data_df (none :: songSrc) = get_song_data_df songSrc ∧
    get_log_data_df (none :: logSrc) = get_log_data_df logSrc := by
  refine ⟨?_, ?_, rfl, rfl⟩ <;> intro r <;>
    simp [get_song_data_df, get_log_data_df, List.mem_filterMap]

/-- C5: a song record with year 0 contributes no row to the songs table —
its projected tuple is removed by the `year != 0` filter — while its artist
fields still contribute a row to the artists table, which is built from the
whole catalog with no year filter. -/
theorem claim_C5 (catalog : List RawSong) (s : RawSong) (hs : s ∈ catalog)
    (hy : s.year = some 0) :
    songProj s ∉ songs_table catalog ∧ artistProj s ∈ artists_table catalog := by
  constructor
  · exact songProj_year0_not_mem catalog s hy
  · exact List.mem_dedup.mpr (List.mem_map.mpr ⟨s, hs, rfl⟩)

/-- C5 witness at a two-record catalog containing a year-0 record. -/
theorem claim_C5_witness :
    songProj sampleSongYear0 ∉ songs_table [sampleSong, sampleSongYear0] ∧
    artistProj sampleSongYear0 ∈ artists_table [sampleSong, sampleSongYear0] :=
  claim_C5 [sampleSong, sampleSongYear0] sampleSongYear0 (by decide) rfl

/-- C6: contrary to the claim, enrichment derives no rendering of the
instant at ts/1000 seconds.  For every in-range ts the run succeeds but the
derived timestamp column is null and start_time is the constant string
"None"; consequently any two enriched events — whatever their ts values —
carry identical derived columns, so the start_time strings cannot order
chronologically. -/
theorem claim_C6 :
    (∀ (l : RawLog) (n : Int), l.ts = some n → 0 ≤ n → n.toNat < maxTs →
      ∃ E, enrichEvent l = some E ∧ E.timestamp = none ∧
        E.start_time = some noneChars) ∧
    (∀ (l1 l2 : RawLog) (E1 E2 : Enriched), enrichEvent l1 = some E1 →
      enrichEvent l2 = some E2 →
      E1.timestamp = E2.timestamp ∧ E1.start_time = E2.start_time) := by
  constructor
  · intro l n hts h0 hlt
    rw [enrichEvent_some l n hts, if_pos ⟨h0, hlt⟩]
    exact ⟨_, rfl, rfl, rfl⟩
  · intro l1 l2 E1 E2 h1 h2
    obtain ⟨ht1, hs1, _⟩ := enrichEvent_fields h1
    obtain ⟨ht2, hs2, _⟩ := enrichEvent_fields h2
    rw [ht1, ht2, hs1, hs2]
    exact ⟨rfl, rfl⟩

/-- C6 witness: the concrete events at ts 1000 and ts 2000 — distinct
instants — receive identical null timestamp and "None" start_time. -/
theorem claim_C6_witness :
    (∃ E, enrichEvent cexFree = some E ∧ E.timestamp = none ∧
      E.start_time = some noneChars) ∧
    ((enrE cexFree).timestamp = (enrE cexPaid).timestamp ∧
      (enrE cexFree).start_time = (enrE cexPaid).start_time) :=
  ⟨claim_C6.1 cexFree 1000 rfl (by decide) (by decide),
   claim_C6.2 cexFree cexPaid (enrE cexFree) (enrE cexPaid) (by decide) (by decide)⟩

/-- C7: over any engine partitioning of the songplays rows in which every
partition holds at most 2^33 rows (Spark's documented bound for
`monotonically_increasing_id`), the assigned songplay_id values are
pairwise distinct; nothing is claimed about ordering or contiguity. -/
theorem claim_C7 (staging : List Enriched) (catalog : List RawSong)
    (parts : List (List SongplayRow))
    (hparts : parts.flatten = songplay_rows staging catalog)
    (hsize : ∀ p ∈ parts, p.length ≤ 2 ^ 33) :
    ((monotonically_increasing_id parts).map Prod.fst).Nodup :=
  midAux_fst_nodup parts 0 hsize

/-- C7 witness: a one-partition split of a one-row songplays table. -/
theorem claim_C7_witness :
    ((monotonically_increasing_id [[spProj sampleE1 sampleSong]]).map Prod.fst).Nodup :=
  claim_C7 [sampleE1] [sampleSong] [[spProj sampleE1 sampleSong]] (by decide) (by decide)

/-- C8: two runs over the same parsed sources, differing only in the
engine-chosen partitioning fed to the id generator, produce identical
songs, artists, users and time tables field for field, and identical
songplays rows once the songplay_id column is stripped. -/
theorem claim_C8 (output_data : String) (songSrc : List (Option RawSong))
    (logSrc : List (Option RawLog))
    (part1 part2 : List SongplayRow → List (List SongplayRow))
    (hp1 : ∀ rows, (part1 rows).flatten = rows)
    (hp2 : ∀ rows, (part2 rows).flatten = rows)
    (o1 o2 : RunOutput)
    (h1 : runPipeline output_data songSrc logSrc part1 = some o1)
    (h2 : runPipeline output_data songSrc logSrc part2 = some o2) :
    o1.songs = o2.songs ∧ o1.artists = o2.artists ∧ o1.users = o2.users ∧
    o1.times = o2.times ∧
    o1.songplays.map Prod.snd = o2.songplays.map Prod.snd := by
  simp only [runPipeline] at h1 h2
  cases henr : enrich_log_data
      ((get_log_data_df logSrc).filter fun l => l.page == some "NextSong") with
  | none =>
    rw [henr] at h1
    exact absurd h1 (by simp)
  | some staging =>
    rw [henr] at h1 h2
    injection h1 with h1
    injection h2 with h2
    rw [← h1, ← h2]
    refine ⟨rfl, rfl, rfl, rfl, ?_⟩
    show (monotonically_increasing_id
        (part1 (songplay_rows staging (get_song_data_df songSrc)))).map Prod.snd
      = (monotonically_increasing_id
        (part2 (songplay_rows staging (get_song_data_df songSrc)))).map Prod.snd
    unfold monotonically_increasing_id
    rw [midAux_map_snd, midAux_map_snd, hp1, hp2]

/-- The default empty output, used only to extract concrete run results. -/
def emptyOut : RunOutput :=
  { songs := [], artists := [], users := [], times := [], songplays := [], writes := [] }

def sampleSongSrc : List (Option RawSong) := [some sampleSong]

def sampleLogSrc : List (Option RawLog) := [some cexFree]

def sampleOut1 : RunOutput :=
  (runPipeline "out" sampleSongSrc sampleLogSrc fun rows => [rows]).getD emptyOut

def sampleOut2 : RunOutput :=
  (runPipeline "out" sampleSongSrc sampleLogSrc fun rows => [rows, []]).getD emptyOut

/-- C8 witness: the sample run under two different partitionings. -/
theorem claim_C8_witness :
    sampleOut1.songs = sampleOut2.songs ∧ sampleOut1.artists = sampleOut2.artists ∧
    sampleOut1.users = sampleOut2.users ∧ sampleOut1.times = sampleOut2.times ∧
    sampleOut1.songplays.map Prod.snd = sampleOut2.songplays.map Prod.snd :=
  claim_C8 "out" sampleSongSrc sampleLogSrc (fun rows => [rows]) (fun rows => [rows, []])
    (fun rows => by simp) (fun rows => by simp) sampleOut1 sampleOut2
    (by decide) (by decide)

/-- C9: every successful run performs exactly the five declared writes, in
order — songs partitioned by (year, artist_id), artists and users with no
partition columns, time and songplays partitioned by (year, month) — and
every write uses overwrite mode. -/
theorem claim_C9 (output_data : String) (songSrc : List (Option RawSong))
    (logSrc : List (Option RawLog)) (part : List SongplayRow → List (List SongplayRow))
    (o : RunOutput) (h : runPipeline output_data songSrc logSrc part = some o) :
    o.writes = [
      { path := output_data ++ "/songs/", partitionBy := ["year", "artist_id"],
        mode := "overwrite" },
      { path := output_data ++ "/artists/", partitionBy := [], mode := "overwrite" },
      { path := output_data ++ "/users/", partitionBy := [], mode := "overwrite" },
      { path := output_data ++ "/time/", partitionBy := ["year", "month"],
        mode := "overwrite" },
      { path := output_data ++ "/songplays/", partitionBy := ["year", "month"],
        mode := "overwrite" } ] ∧
    ∀ w ∈ o.writes, w.mode = "overwrite" := by
  simp only [runPipeline] at h
  cases henr : enrich_log_data
      ((get_log_data_df logSrc).filter fun l => l.page == some "NextSong") with
  | none =>
    rw [henr] at h
    exact absurd h (by simp)
  | some staging =>
    rw [henr] at h
    injection h with h
    constructor
    · rw [← h]
    · intro w hw
      rw [← h] at hw
      simp only [List.mem_cons, List.not_mem_nil, or_false] at hw
      rcases hw with rfl | rfl | rfl | rfl | rfl <;> rfl

/-- C9 witness: the writes of the concrete sample run. -/
theorem claim_C9_witness :
    sampleOut1.writes = [
      { path := "out" ++ "/songs/", partitionBy := ["year", "artist_id"],
        mode := "overwrite" },
      { path := "out" ++ "/artists/", partitionBy := [], mode := "overwrite" },
      { path := "out" ++ "/users/", partitionBy := [], mode := "overwrite" },
      { path := "out" ++ "/time/", partitionBy := ["year", "month"],
        mode := "overwrite" },
      { path := "out" ++ "/songplays/", partitionBy := ["year", "month"],
        mode := "overwrite" } ] ∧
    ∀ w ∈ sampleOut1.writes, w.mode = "overwrite" :=
  claim_C9 "out" sampleSongSrc sampleLogSrc (fun rows => [rows]) sampleOut1 (by decide)

/-- C10: when a catalog record has year 0 and its title exactly matches a
staged log event's song, the songplays join — which reads the unfiltered,
re-read catalog — still produces the fact row, even though the year filter
excludes that record's row from the songs table; if every catalog record
sharing that song_id has year 0, no songs-table row carries the referenced
song_id at all. -/
theorem claim_C10 (staging : List Enriched) (catalog : List RawSong)
    (s : RawSong) (e : Enriched) (t : String)
    (hs : s ∈ catalog) (he : e ∈ staging)
    (hy : s.year = some 0) (ht : s.title = some t) (hsong : e.song = some t) :
    spProj e s ∈ songplay_rows staging catalog ∧
    songProj s ∉ songs_table catalog ∧
    ((∀ s2 ∈ catalog, s2.song_id = s.song_id → s2.year = some 0) →
      ∀ r ∈ songs_table catalog, r.song_id ≠ s.song_id) := by
  refine ⟨?_, songProj_year0_not_mem catalog s hy, ?_⟩
  · unfold songplay_rows
    apply List.mem_map.mpr
    refine ⟨(e, s), ?_, rfl⟩
    apply List.mem_filter.mpr
    refine ⟨mem_product.mpr ⟨he, hs⟩, ?_⟩
    unfold songplayJoinCond
    rw [hsong, ht]
    exact beq_iff_eq.mpr rfl
  · intro hall r hr hid
    obtain ⟨hrd, hpred⟩ := List.mem_filter.mp hr
    obtain ⟨s2, hs2, hs2e⟩ := List.mem_map.mp (List.mem_dedup.mp hrd)
    have hsid : s2.song_id = s.song_id := by
      rw [show s2.song_id = (songProj s2).song_id from rfl, hs2e]
      exact hid
    have hy2 := hall s2 hs2 hsid
    have h0 : songYearPred r = false := by
      apply songYearPred_false_of_year0
      rw [← hs2e]
      exact hy2
    rw [h0] at hpred
    exact Bool.false_ne_true hpred

/-- C10 witness: a year-0 catalog record matching the sample event. -/
theorem claim_C10_witness :
    spProj sampleE1 sampleSongYear0 ∈ songplay_rows [sampleE1] [sampleSongYear0] ∧
    songProj sampleSongYear0 ∉ songs_table [sampleSongYear0] ∧
    ((∀ s2 ∈ [sampleSongYear0], s2.song_id = sampleSongYear0.song_id →
        s2.year = some 0) →
      ∀ r ∈ songs_table [sampleSongYear0], r.song_id ≠ sampleSongYear0.song_id) :=
  claim_C10 [sampleE1] [sampleSongYear0] sampleSongYear0 sampleE1 "Test Song"
    (by decide) (by decide) rfl rfl rfl

end Sparkify
